import Mathlib

/-!
Shallow embedding of the order/payment transaction engine of the
`mariapos` backend (Django, `src/backend/orders` and `src/backend/payments`),
together with theorems settling the specification claims about it.

Monetary values (Python `Decimal` columns with 2 decimal places) are
modelled as exact rationals `ℚ`: the Decimal arithmetic performed by the
source (`+`, `-`, `*` on small decimals) is exact, so `ℚ` represents it
faithfully.  Statuses and choice strings become inductive types whose
constructors keep the source's string values (noted in comments where the
Lean name must differ).
-/

namespace MariaPos

/-- `Order.TYPE_CHOICES` from `orders/models.py`. -/
inductive OrderType
  | dine_in
  | room_service
  | takeaway
deriving DecidableEq, Repr

/-- `Order.STATUS_CHOICES` from `orders/models.py`. -/
inductive OrderStatus
  | pending
  | confirmed
  | preparing
  | ready
  | served
  | cancelled
  | completed
deriving DecidableEq, Repr

/-- One `OrderItem` row (`orders/models.py`): quantity plus the snapshotted
menu-item name/price and the computed `unit_price` / `line_total` columns. -/
structure OrderItem where
  menu_item_name : String
  menu_item_price : ℚ
  quantity : ℕ
  unit_price : ℚ
  line_total : ℚ
deriving DecidableEq, Repr

/-- The `Order` row (`orders/models.py`), restricted to the fields the
totals calculator and status machine read or write. -/
structure Order where
  type : OrderType
  status : OrderStatus
  subtotal : ℚ
  tax_amount : ℚ
  service_charge : ℚ
  discount_amount : ℚ
  total_amount : ℚ
  items : List OrderItem
deriving DecidableEq, Repr

/-- `Order.calculate_totals` (`orders/models.py` lines 126-143), verbatim:
`subtotal = Σ item.line_total`; `tax_amount = subtotal * Decimal('0.16')`;
`service_charge = subtotal * Decimal('0.10')` when `type == 'dine_in'`
else `0.00`; `total_amount = subtotal + tax_amount + service_charge -
discount_amount`.  The source applies no rounding in this method. -/
def Order.calculate_totals (o : Order) : Order :=
  let items_total : ℚ := (o.items.map OrderItem.line_total).sum
  let subtotal := items_total
  let tax_amount := subtotal * (16 / 100)
  let service_charge :=
    if o.type = OrderType.dine_in then subtotal * (10 / 100) else 0
  { o with
    subtotal := subtotal
    tax_amount := tax_amount
    service_charge := service_charge
    total_amount := subtotal + tax_amount + service_charge - o.discount_amount }

/-- Half-up rounding to 2 decimal places, as the specification's words
describe RecalculateTotals ("Rounding is half-up to 2 decimal places").
Modelled from the spec: the source's `calculate_totals` contains no
rounding call; this definition exists only to compare the spec's words
with the source. -/
def roundHalfUp2 (q : ℚ) : ℚ := (⌊q * 100 + 1 / 2⌋ : ℤ) / 100

/-- `Order.can_be_cancelled` (`orders/models.py` lines 145-147). -/
def Order.can_be_cancelled (o : Order) : Bool :=
  o.status = OrderStatus.pending ∨ o.status = OrderStatus.confirmed

/-- The example order of the spec's concrete scenario 1: line items
(qty 2 @ 10.00) and (qty 1 @ 5.99), `type = dine_in`, no discount.
Its stored money fields are all 0 until `calculate_totals` runs. -/
def exampleOrder : Order :=
  { type := OrderType.dine_in
    status := OrderStatus.pending
    subtotal := 0
    tax_amount := 0
    service_charge := 0
    discount_amount := 0
    total_amount := 0
    items :=
      [ { menu_item_name := "a", menu_item_price := 10, quantity := 2
          unit_price := 10, line_total := 20 }
      , { menu_item_name := "b", menu_item_price := 599 / 100, quantity := 1
          unit_price := 599 / 100, line_total := 599 / 100 } ] }

example : (exampleOrder.calculate_totals).subtotal = 2599 / 100 := by
  norm_num [Order.calculate_totals, exampleOrder, OrderItem.line_total]
example : (exampleOrder.calculate_totals).tax_amount = 41584 / 10000 := by
  norm_num [Order.calculate_totals, exampleOrder, OrderItem.line_total]
example : (exampleOrder.calculate_totals).service_charge = 2599 / 1000 := by
  norm_num [Order.calculate_totals, exampleOrder, OrderItem.line_total]
example : (exampleOrder.calculate_totals).total_amount = 327474 / 10000 := by
  norm_num [Order.calculate_totals, exampleOrder, OrderItem.line_total]
example : roundHalfUp2 ((2599 / 100 : ℚ) * (16 / 100)) = 416 / 100 := by
  norm_num [roundHalfUp2]

/-! ## Status state machine (`orders/serializers.py`, `orders/views.py`) -/

/-- One `OrderStatusHistory` row (`orders/models.py` lines 236-257),
restricted to the fields business logic writes. -/
structure StatusEvent where
  status : OrderStatus
  notes : String
deriving DecidableEq, Repr

/-- `OrderStatusUpdateSerializer.validate_status`
(`orders/serializers.py` lines 240-252): the only rejections are a
non-`completed` target on a `completed` order and a non-`cancelled`
target on a `cancelled` order.  Returns `false` when the serializer
raises `ValidationError`. -/
def validate_status (current new : OrderStatus) : Bool :=
  if current = OrderStatus.completed ∧ new ≠ OrderStatus.completed then false
  else if current = OrderStatus.cancelled ∧ new ≠ OrderStatus.cancelled then false
  else true

/-- Modelled from the spec: the transition graph of §4.2, "pending →
confirmed → preparing → ready → served → completed, with cancelled
reachable from any non-terminal state".  Written from the spec's words
only, to be compared with `validate_status` from the source. -/
def specAllowedEdge (current new : OrderStatus) : Bool :=
  match current, new with
  | OrderStatus.pending, OrderStatus.confirmed => true
  | OrderStatus.confirmed, OrderStatus.preparing => true
  | OrderStatus.preparing, OrderStatus.ready => true
  | OrderStatus.ready, OrderStatus.served => true
  | OrderStatus.served, OrderStatus.completed => true
  | OrderStatus.completed, _ => false
  | OrderStatus.cancelled, _ => false
  | _, OrderStatus.cancelled => true
  | _, _ => false

/-- `update_order_status` (`orders/views.py` lines 113-154), success path
after permission checks: validate via
`OrderStatusUpdateSerializer.validate_status`, set `order.status`, call
`order.save()` (which re-runs `calculate_totals` on an existing row,
`orders/models.py` line 121-122), and unconditionally append one
`OrderStatusHistory` row carrying the new status.  `none` models the
HTTP 400 rejection. -/
def update_order_status (o : Order) (hist : List StatusEvent)
    (new : OrderStatus) (notes : String) : Option (Order × List StatusEvent) :=
  if validate_status o.status new then
    some (Order.calculate_totals { o with status := new },
      hist ++ [{ status := new, notes := notes }])
  else none

/-- `cancel_order` (`orders/views.py` lines 156-192), success path after
permission checks: rejected only when `order.status` is `'completed'` or
`'cancelled'`; otherwise sets status to `'cancelled'`, saves (re-running
`calculate_totals`), and appends one history row.  The model property
`can_be_cancelled` is not consulted by this view. -/
def cancel_order (o : Order) (hist : List StatusEvent)
    (reason : String) : Option (Order × List StatusEvent) :=
  if o.status = OrderStatus.completed ∨ o.status = OrderStatus.cancelled then none
  else
    some (Order.calculate_totals { o with status := OrderStatus.cancelled },
      hist ++ [{ status := OrderStatus.cancelled, notes := reason }])

/-! ## Order creation and saving (`orders/serializers.py`, `orders/models.py`) -/

/-- The catalog collaborator's view of a `menu.MenuItem` row: the fields
`OrderItem.save` and the order-creation serializer read. -/
structure MenuItem where
  name : String
  price : ℚ
  is_available : Bool
deriving DecidableEq, Repr

/-- `OrderItem.save` (`orders/models.py` lines 202-212): on EVERY save it
re-copies `menu_item.name` / `menu_item.price` from the live catalog row
into the snapshot columns, sets `unit_price = menu_item_price` and
`line_total = quantity * unit_price`.  `menu` is the catalog row the
item's foreign key currently references. -/
def OrderItem.save (item : OrderItem) (menu : MenuItem) : OrderItem :=
  { item with
    menu_item_name := menu.name
    menu_item_price := menu.price
    unit_price := menu.price
    line_total := (item.quantity : ℚ) * menu.price }

/-- A fresh `OrderItem.objects.create(...)` as performed by
`OrderCreateSerializer.create` (`orders/serializers.py` lines 174-181):
a new row with the requested quantity, passed through `OrderItem.save`. -/
def OrderItem.create_from (menu : MenuItem) (quantity : ℕ) : OrderItem :=
  OrderItem.save
    { menu_item_name := "", menu_item_price := 0, quantity := quantity
      unit_price := 0, line_total := 0 } menu

/-- `OrderCreateSerializer.create` (`orders/serializers.py` lines
167-193), success path after validation: persists the order, creates one
`OrderItem` per requested (catalog item, quantity) pair, runs
`calculate_totals` and saves.  It creates NO `OrderStatusHistory` row;
the returned list is the set of history rows written by the operation. -/
def order_create (type : OrderType) (requested : List (MenuItem × ℕ))
    (discount_amount : ℚ) : Order × List StatusEvent :=
  let items := requested.map fun mq => OrderItem.create_from mq.1 mq.2
  let o : Order :=
    { type := type, status := OrderStatus.pending
      subtotal := 0, tax_amount := 0, service_charge := 0
      discount_amount := discount_amount, total_amount := 0, items := items }
  (Order.calculate_totals o, [])

/-! ## Payment ledger (`payments/models.py`, `payments/serializers.py`,
`payments/views.py`) -/

/-- `Payment.STATUS_CHOICES` (`payments/models.py`).  `partRefund` models
the source string `'partial_refund'`. -/
inductive PaymentStatus
  | pending
  | processing
  | completed
  | failed
  | cancelled
  | refunded
  | partRefund
deriving DecidableEq, Repr

/-- `Payment.METHOD_CHOICES` (`payments/models.py`). -/
inductive PaymentMethod
  | cash
  | card
  | mobile_money
  | bank_transfer
  | digital_wallet
  | voucher
  | room_charge
deriving DecidableEq, Repr

/-- One `Payment` row against an order, restricted to the fields the
balance accounting reads: `amount` and `status`. -/
structure PaymentRec where
  amount : ℚ
  status : PaymentStatus
deriving DecidableEq, Repr

/-- `sum(p.amount for p in order.payments.filter(status='completed'))`
(`payments/serializers.py` line 83). -/
def completedSum (ps : List PaymentRec) : ℚ :=
  ((ps.filter fun p => p.status = PaymentStatus.completed).map PaymentRec.amount).sum

/-- A payment still awaiting completion: status `'pending'` or
`'processing'` (the statuses `PaymentProcessingSerializer.validate`
accepts, `payments/serializers.py` line 116). -/
def PaymentRec.isOpen (p : PaymentRec) : Bool :=
  p.status = PaymentStatus.pending ∨ p.status = PaymentStatus.processing

/-- Sum of the amounts of open (pending/processing) payments. -/
def openSum (ps : List PaymentRec) : ℚ :=
  ((ps.filter PaymentRec.isOpen).map PaymentRec.amount).sum

/-- The two rejection kinds of `PaymentCreateSerializer`
(`payments/serializers.py`): `validate_amount` ("Payment amount must be
positive", lines 70-74) and the cross-field `validate` ("Payment amount
... exceeds remaining order amount", lines 76-91). -/
inductive PaymentCreateError
  | amountNotPositive
  | exceedsBalance
deriving DecidableEq, Repr

/-- `PaymentCreateSerializer` validation: the field validator
`validate_amount` rejects `amount <= 0` first; then `validate` rejects
when `amount > order.total_amount - total_paid` with `total_paid` the
sum over payments with `status='completed'`. -/
def payment_create_validate (total : ℚ) (ps : List PaymentRec)
    (amount : ℚ) : Option PaymentCreateError :=
  if amount ≤ 0 then some PaymentCreateError.amountNotPositive
  else if amount > total - completedSum ps then some PaymentCreateError.exceedsBalance
  else none

/-- `PaymentViewSet.perform_create` (`payments/views.py` lines 117-125):
after the serializer validates, the payment is persisted with default
status `'pending'`; cash payments are immediately advanced to
`'completed'` via `process_payment`.  Returns the new payments list of
the order, or `none` on serializer rejection. -/
def record_payment (total : ℚ) (ps : List PaymentRec) (amount : ℚ)
    (method : PaymentMethod) : Option (List PaymentRec) :=
  match payment_create_validate total ps amount with
  | some _ => none
  | none =>
    let st := if method = PaymentMethod.cash
      then PaymentStatus.completed else PaymentStatus.pending
    some (ps ++ [{ amount := amount, status := st }])

/-- The `process` action (`payments/views.py` lines 127-156):
`PaymentProcessingSerializer.validate` rejects unless the payment's
status is `'pending'` or `'processing'`; on success
`Payment.process_payment` (`payments/models.py` lines 141-146) sets the
status to `'completed'` with no re-check of the order balance.  `i`
indexes the payment within the order's payment list. -/
def process_payment_at (ps : List PaymentRec) (i : ℕ) : Option (List PaymentRec) :=
  match ps[i]? with
  | none => none
  | some p =>
    if p.isOpen then some (ps.set i { p with status := PaymentStatus.completed })
    else none

/-- A `Payment` row restricted to the fields the refund logic reads and
writes (`payments/models.py`). -/
structure Payment where
  amount : ℚ
  status : PaymentStatus
  refunded_amount : ℚ
deriving DecidableEq, Repr

/-- `Payment.can_be_refunded` (`payments/models.py` lines 131-134). -/
def Payment.can_be_refunded (p : Payment) : Bool :=
  p.status = PaymentStatus.completed ∧ p.refunded_amount < p.amount

/-- `Payment.remaining_refundable_amount` (`payments/models.py` lines
136-139). -/
def Payment.remaining_refundable_amount (p : Payment) : ℚ :=
  p.amount - p.refunded_amount

/-- One `PaymentRefund` row, restricted to the fields `Payment.refund`
writes. -/
structure RefundRow where
  amount : ℚ
  reason : String
deriving DecidableEq, Repr

/-- The two `ValueError`s `Payment.refund` raises: "Payment cannot be
refunded" and "Refund amount exceeds refundable amount". -/
inductive RefundError
  | notRefundable
  | exceedsRefundable
deriving DecidableEq, Repr

/-- `refund_amount = amount or self.remaining_refundable_amount`
(`payments/models.py` line 160).  Python `or`: an absent amount AND a
zero amount both default to the full remaining refundable amount. -/
def Payment.resolve_refund_amount (p : Payment) (amount : Option ℚ) : ℚ :=
  match amount with
  | none => p.remaining_refundable_amount
  | some a => if a = 0 then p.remaining_refundable_amount else a

/-- `Payment.refund` (`payments/models.py` lines 155-181), verbatim:
guard `can_be_refunded`; resolve the refund amount; guard
`refund_amount > remaining_refundable_amount`; then increment
`refunded_amount`, set status to `'refunded'` when `refunded_amount >=
amount` else `'partial_refund'`, and create one `PaymentRefund` row. -/
def Payment.refund (p : Payment) (amount : Option ℚ) (reason : String) :
    Except RefundError (Payment × RefundRow) :=
  if ¬ p.can_be_refunded then Except.error RefundError.notRefundable
  else
    let refund_amount : ℚ := p.resolve_refund_amount amount
    if p.remaining_refundable_amount < refund_amount then
      Except.error RefundError.exceedsRefundable
    else
      let r := p.refunded_amount + refund_amount
      let st := if p.amount ≤ r then PaymentStatus.refunded
        else PaymentStatus.partRefund
      Except.ok ({ p with refunded_amount := r, status := st },
        { amount := refund_amount, reason := reason })

/-- One `PaymentSplit` row (`payments/models.py` lines 339-363). -/
structure PaymentSplit where
  recipient_name : String
  recipient_account : String
  amount : ℚ
  percentage : ℚ
deriving DecidableEq, Repr

/-- `PaymentSplitSerializer` validation (`payments/serializers.py` lines
221-233): the serializer declares no `validate` method, so the only
checks are the model field validators `MinValueValidator(0)` on `amount`
and `percentage` (`payments/models.py` lines 348-349).  No comparison
against the payment's amount or the other splits exists anywhere. -/
def payment_split_validate (s : PaymentSplit) : Bool :=
  0 ≤ s.amount ∧ 0 ≤ s.percentage

/-- Creating a `PaymentSplit` through the serializer: append the row when
the field validators pass.  `p` is the payment the split references and
`splits` its existing splits; neither is read by any check. -/
def payment_split_create (p : PaymentRec) (splits : List PaymentSplit)
    (s : PaymentSplit) : Option (List PaymentSplit) :=
  if payment_split_validate s then some (splits ++ [s]) else none

/-- `Order.save` on an existing row (`orders/models.py` lines 103-124,
`self.pk is not None` and no `skip_calculate_totals`): re-runs
`calculate_totals` and always persists.  The order's payments are passed
in to express that the source performs no check against them: no
completed payment ever blocks the save. -/
def Order.save_existing (o : Order) (payments : List PaymentRec) : Option Order :=
  some (Order.calculate_totals o)

/-- The payment-ledger states of one order reachable through
`record_payment` and `process_payment_at` under the serialized
discipline that a new payment is only recorded while no pending or
processing payment is outstanding. -/
inductive SerializedReach (total : ℚ) : List PaymentRec → Prop
  | init : SerializedReach total []
  | record (ps : List PaymentRec) (amount : ℚ) (method : PaymentMethod)
      (ps' : List PaymentRec) (h : SerializedReach total ps)
      (hser : ps.filter PaymentRec.isOpen = [])
      (hok : record_payment total ps amount method = some ps') :
      SerializedReach total ps'
  | process (ps : List PaymentRec) (i : ℕ) (ps' : List PaymentRec)
      (h : SerializedReach total ps)
      (hok : process_payment_at ps i = some ps') :
      SerializedReach total ps'

/-! ## Theorems -/

/-- **C1** (amended): `calculate_totals` computes `subtotal = Σ
line_total`, an UNROUNDED `tax_amount = subtotal × 0.16`, an unrounded
`service_charge = subtotal × 0.10` for dine-in and `0.00` otherwise, and
`total_amount = subtotal + tax_amount + service_charge −
discount_amount` from the unrounded components, all in exact fixed-point
decimal arithmetic with no half-up rounding step; the function is
idempotent; on the spec's example (qty 2 @ 10.00, qty 1 @ 5.99, dine-in)
it yields subtotal 25.99, tax 4.1584, service charge 2.599 and total
32.7474. -/
theorem C1_theorem :
    (∀ o : Order,
      (Order.calculate_totals o).subtotal = (o.items.map OrderItem.line_total).sum ∧
      (Order.calculate_totals o).tax_amount =
        (Order.calculate_totals o).subtotal * (16 / 100) ∧
      (Order.calculate_totals o).service_charge =
        (if o.type = OrderType.dine_in
          then (Order.calculate_totals o).subtotal * (10 / 100) else 0) ∧
      (Order.calculate_totals o).discount_amount = o.discount_amount ∧
      (Order.calculate_totals o).total_amount =
        (Order.calculate_totals o).subtotal + (Order.calculate_totals o).tax_amount +
          (Order.calculate_totals o).service_charge - o.discount_amount ∧
      Order.calculate_totals (Order.calculate_totals o) = Order.calculate_totals o) ∧
    (exampleOrder.calculate_totals).subtotal = 2599 / 100 ∧
    (exampleOrder.calculate_totals).tax_amount = 41584 / 10000 ∧
    (exampleOrder.calculate_totals).service_charge = 2599 / 1000 ∧
    (exampleOrder.calculate_totals).total_amount = 327474 / 10000 := by
  refine ⟨fun o => ⟨rfl, rfl, rfl, rfl, rfl, rfl⟩, ?_, ?_, ?_, ?_⟩ <;>
    norm_num [Order.calculate_totals, exampleOrder, OrderItem.line_total]

/-- **C1** counterexample to the claim as stated: on the spec's own
example order, `calculate_totals` stores `tax_amount = 4.1584`, not the
half-up-rounded 4.16 the claim asserts, and `total_amount = 32.7474`,
not 32.75. -/
theorem C1_counterexample :
    (exampleOrder.calculate_totals).tax_amount ≠
      roundHalfUp2 ((exampleOrder.calculate_totals).subtotal * (16 / 100)) ∧
    (exampleOrder.calculate_totals).tax_amount ≠ 416 / 100 ∧
    (exampleOrder.calculate_totals).total_amount ≠ 3275 / 100 ∧
    (exampleOrder.calculate_totals).tax_amount = 41584 / 10000 ∧
    roundHalfUp2 ((exampleOrder.calculate_totals).subtotal * (16 / 100)) = 416 / 100 := by
  norm_num [Order.calculate_totals, exampleOrder, OrderItem.line_total, roundHalfUp2]

/-- **C2** (amended): the status-transition validator rejects exactly
the transitions leaving a terminal status for a different status — a
non-`completed` target on a `completed` order or a non-`cancelled`
target on a `cancelled` order.  Every other edge, including every
backward edge between non-terminal states, is accepted; the code is
strictly more permissive than the spec's chain graph. -/
theorem C2_theorem :
    ∀ current new : OrderStatus,
      (validate_status current new = false ↔
        (current = OrderStatus.completed ∧ new ≠ OrderStatus.completed) ∨
        (current = OrderStatus.cancelled ∧ new ≠ OrderStatus.cancelled)) ∧
      (specAllowedEdge current new = true → validate_status current new = true) := by
  intro current new
  cases current <;> cases new <;> decide

/-- **C2** witness: instantiating the theorem at the edge
`pending → confirmed`, which the spec graph allows and the code accepts. -/
theorem C2_witness :
    validate_status OrderStatus.pending OrderStatus.confirmed = true :=
  (C2_theorem OrderStatus.pending OrderStatus.confirmed).2 (by decide)

/-- **C2** counterexample to the claim as stated: the transition
`served → preparing` is not in the spec's graph, yet
`OrderStatusUpdateSerializer.validate_status` accepts it. -/
theorem C2_counterexample :
    validate_status OrderStatus.served OrderStatus.preparing = true ∧
    specAllowedEdge OrderStatus.served OrderStatus.preparing = false := by
  decide

/-- **C3** (confirmed): for a positive amount, `PaymentCreateSerializer`
rejects with the exceeds-balance error exactly when `amount >
order.total_amount − Σ(completed payments)`; payments whose status is
not `'completed'` do not count against the balance; and paying 40.00 on
an order with total 32.75 and no prior payments is rejected. -/
theorem C3_theorem :
    (∀ (total : ℚ) (ps : List PaymentRec) (amount : ℚ), 0 < amount →
      (payment_create_validate total ps amount = some PaymentCreateError.exceedsBalance ↔
        amount > total - completedSum ps)) ∧
    (∀ (ps : List PaymentRec) (a : ℚ) (st : PaymentStatus),
      st ≠ PaymentStatus.completed →
      completedSum (ps ++ [{ amount := a, status := st }]) = completedSum ps) ∧
    payment_create_validate (3275 / 100) [] 40 = some PaymentCreateError.exceedsBalance := by
  refine ⟨?_, ?_, ?_⟩
  · intro total ps amount hpos
    simp only [payment_create_validate]
    rw [if_neg (by linarith)]
    constructor
    · intro h
      by_contra hgt
      rw [if_neg hgt] at h
      exact Option.noConfusion h
    · intro h
      rw [if_pos h]
  · intro ps a st hst
    simp [completedSum, List.filter_append, hst]
  · norm_num [payment_create_validate, completedSum]

/-- **C3** witness: the two hypothetical parts instantiated concretely —
positive amount 40.00 against total 32.75, and a pending payment of 5.00
not counting toward the balance. -/
theorem C3_witness :
    (payment_create_validate (3275 / 100) [] 40 = some PaymentCreateError.exceedsBalance ↔
      (40 : ℚ) > 3275 / 100 - completedSum []) ∧
    completedSum ([] ++ [{ amount := 5, status := PaymentStatus.pending }]) = completedSum [] :=
  ⟨C3_theorem.1 (3275 / 100) [] 40 (by norm_num),
   C3_theorem.2.1 [] 5 PaymentStatus.pending (by decide)⟩

/-- **C6** (amended): `cancel_order` rejects exactly the two terminal
statuses `completed` and `cancelled`; an order that is `preparing`,
`ready` or `served` can still be cancelled.  The stricter model property
`can_be_cancelled` (status ∈ {pending, confirmed}) exists but is not
consulted by the view.  On success the order's status becomes
`cancelled` and one history row is appended. -/
theorem C6_theorem :
    ∀ (o : Order) (hist : List StatusEvent) (reason : String),
      (cancel_order o hist reason = none ↔
        o.status = OrderStatus.completed ∨ o.status = OrderStatus.cancelled) ∧
      (∀ (o' : Order) (hist' : List StatusEvent),
        cancel_order o hist reason = some (o', hist') →
        o'.status = OrderStatus.cancelled ∧
        hist' = hist ++ [{ status := OrderStatus.cancelled, notes := reason }]) := by
  intro o hist reason
  constructor
  · simp only [cancel_order]
    split
    · simp_all
    · simp_all
  · intro o' hist' h
    simp only [cancel_order] at h
    split at h
    · exact Option.noConfusion h
    · rw [Option.some.injEq, Prod.mk.injEq] at h
      refine ⟨?_, h.2.symm⟩
      rw [← h.1]
      rfl

/-- The example order in state `preparing`, used to exercise
cancellation after preparation has started. -/
def preparingOrder : Order :=
  { exampleOrder with status := OrderStatus.preparing }

/-- **C6** witness: the theorem instantiated at the `preparing` order —
its cancellation is not rejected, and the success clause applied to the
concrete result. -/
theorem C6_witness :
    (cancel_order preparingOrder [] "stale" = none ↔
      preparingOrder.status = OrderStatus.completed ∨
      preparingOrder.status = OrderStatus.cancelled) ∧
    (Order.calculate_totals { preparingOrder with status := OrderStatus.cancelled }).status =
      OrderStatus.cancelled :=
  ⟨(C6_theorem preparingOrder [] "stale").1,
   ((C6_theorem preparingOrder [] "stale").2 _ _ rfl).1⟩

/-- **C6** counterexample to the claim as stated: an order in status
`preparing` is NOT cancellable per `can_be_cancelled`, yet the
`cancel_order` view accepts the cancellation. -/
theorem C6_counterexample :
    Order.can_be_cancelled preparingOrder = false ∧
    (cancel_order preparingOrder [] "changed my mind").isSome = true := by
  constructor
  · decide
  · rfl

/-- A catalog row priced at 10.00, and the same row after an admin
raises the price to 12.00. -/
def menuBurger10 : MenuItem := { name := "Burger", price := 10, is_available := true }

def menuBurger12 : MenuItem := { menuBurger10 with price := 12 }

/-- **C7** (amended): `OrderItem.save` re-copies the catalog item's
current name and price into the snapshot columns on EVERY save, and
recomputes `unit_price` and `line_total` from that fresh price.  Stored
rows are therefore immune to a catalog price change only as long as the
line item is never saved again: the stored order totals do not move when
the catalog changes, but any subsequent save of the line item adopts the
new catalog price. -/
theorem C7_theorem :
    ∀ (item : OrderItem) (menu : MenuItem),
      (OrderItem.save item menu).menu_item_name = menu.name ∧
      (OrderItem.save item menu).menu_item_price = menu.price ∧
      (OrderItem.save item menu).unit_price = menu.price ∧
      (OrderItem.save item menu).line_total = (item.quantity : ℚ) * menu.price ∧
      (OrderItem.save item menu).quantity = item.quantity :=
  fun _ _ => ⟨rfl, rfl, rfl, rfl, rfl⟩

/-- **C7** counterexample to the claim as stated: a line item created at
catalog price 10.00 (qty 2, line total 20.00) and re-saved after the
catalog price changed to 12.00 — e.g. by any later item-status update —
takes unit price 12.00 and line total 24.00: the snapshot is not immune
under every subsequent operation on the line item. -/
theorem C7_counterexample :
    (OrderItem.create_from menuBurger10 2).unit_price = 10 ∧
    (OrderItem.create_from menuBurger10 2).line_total = 20 ∧
    (OrderItem.save (OrderItem.create_from menuBurger10 2) menuBurger12).unit_price = 12 ∧
    (OrderItem.save (OrderItem.create_from menuBurger10 2) menuBurger12).line_total = 24 ∧
    (12 : ℚ) ≠ 10 := by
  norm_num [OrderItem.create_from, OrderItem.save, menuBurger10, menuBurger12]

/-- **C8** (amended): no `SplitExceedsAmount` check exists.  Creating a
`PaymentSplit` is rejected exactly when a field validator fails (a
negative amount or percentage); acceptance is independent of the
payment's amount and of the already-recorded splits, so recorded splits
can sum to more than the payment's amount. -/
theorem C8_theorem :
    ∀ (p p' : PaymentRec) (splits splits' : List PaymentSplit) (s : PaymentSplit),
      (payment_split_create p splits s = some (splits ++ [s]) ↔
        0 ≤ s.amount ∧ 0 ≤ s.percentage) ∧
      (payment_split_create p splits s = none ↔
        s.amount < 0 ∨ s.percentage < 0) ∧
      ((payment_split_create p splits s).isSome =
        (payment_split_create p' splits' s).isSome) := by
  intro p p' splits splits' s
  simp only [payment_split_create, payment_split_validate]
  by_cases h1 : 0 ≤ s.amount <;> by_cases h2 : 0 ≤ s.percentage <;>
    simp [h1, h2, not_le.mp, lt_iff_not_le]

/-- Two splits of 20.00 each against a 32.75 payment. -/
def split20a : PaymentSplit :=
  { recipient_name := "alice", recipient_account := "acct-1", amount := 20, percentage := 50 }

def split20b : PaymentSplit :=
  { recipient_name := "bob", recipient_account := "acct-2", amount := 20, percentage := 50 }

/-- **C8** counterexample to the claim as stated: against a completed
payment of 32.75, two splits of 20.00 each are both accepted, and their
amounts sum to 40.00 > 32.75 — `SplitExceedsAmount` is never raised. -/
theorem C8_counterexample :
    payment_split_create { amount := 3275 / 100, status := PaymentStatus.completed }
      [] split20a = some [split20a] ∧
    payment_split_create { amount := 3275 / 100, status := PaymentStatus.completed }
      [split20a] split20b = some [split20a, split20b] ∧
    split20a.amount + split20b.amount > (3275 / 100 : ℚ) := by
  norm_num [payment_split_create, payment_split_validate, split20a, split20b]

/-- **C9** (amended): `OrderCreateSerializer.create` writes NO
`OrderStatusHistory` row — no initial `pending` event exists; history
rows are appended only by the transition endpoints: each accepted
`update_order_status` call appends exactly one row carrying the new
status, so the ledger holds one row per transition but none for the
order's creation. -/
theorem C9_theorem :
    (∀ (t : OrderType) (req : List (MenuItem × ℕ)) (d : ℚ),
      (order_create t req d).2 = []) ∧
    (∀ (o : Order) (hist : List StatusEvent) (new : OrderStatus)
        (notes : String) (o' : Order) (hist' : List StatusEvent),
      update_order_status o hist new notes = some (o', hist') →
      hist' = hist ++ [{ status := new, notes := notes }] ∧ o'.status = new) := by
  refine ⟨fun _ _ _ => rfl, ?_⟩
  intro o hist new notes o' hist' h
  simp only [update_order_status] at h
  split at h
  · rw [Option.some.injEq, Prod.mk.injEq] at h
    refine ⟨h.2.symm, ?_⟩
    rw [← h.1]
    rfl
  · exact Option.noConfusion h

/-- **C9** witness: a concrete creation writes an empty ledger, and the
transition `pending → confirmed` on the example order appends exactly
its one row. -/
theorem C9_witness :
    (order_create OrderType.dine_in [(menuBurger10, 2)] 0).2 = [] ∧
    (∀ (o' : Order) (hist' : List StatusEvent),
        update_order_status exampleOrder [] OrderStatus.confirmed "ok" = some (o', hist') →
        hist' = [] ++ [{ status := OrderStatus.confirmed, notes := "ok" }] ∧
          o'.status = OrderStatus.confirmed) :=
  ⟨C9_theorem.1 OrderType.dine_in [(menuBurger10, 2)] 0,
   fun o' hist' h => C9_theorem.2 exampleOrder [] OrderStatus.confirmed "ok" o' hist' h⟩

/-- **C9** counterexample to the claim as stated: creating a concrete
order (one Burger for 2) appends no status event at all, so the ledger
does not contain the claimed initial `pending` row. -/
theorem C9_counterexample :
    (order_create OrderType.dine_in [(menuBurger10, 2)] 0).2 = [] ∧
    ((order_create OrderType.dine_in [(menuBurger10, 2)] 0).2.filter
      (fun e => e.status = OrderStatus.pending)).length = 0 := by
  exact ⟨rfl, rfl⟩

/-- The example order after `calculate_totals`, with one extra Burger
line item added afterwards — a post-payment mutation of the items. -/
def mutatedOrder : Order :=
  let o := exampleOrder.calculate_totals
  { o with items := o.items ++ [OrderItem.create_from menuBurger10 1] }

/-- **C10** (amended): no fail-closed guard exists.  `Order.save` never
consults the order's payments: it succeeds for every order and payments
list — even one containing a completed payment — and always persists
freshly recalculated totals, so post-payment mutation of line items
silently changes the stored monetary fields instead of being rejected. -/
theorem C10_theorem :
    ∀ (o : Order) (ps : List PaymentRec),
      (Order.save_existing o ps).isSome = true ∧
      ((∃ p ∈ ps, p.status = PaymentStatus.completed) →
        Order.save_existing o ps = some (Order.calculate_totals o)) :=
  fun _ _ => ⟨rfl, fun _ => rfl⟩

/-- **C10** witness: the theorem applied to the mutated example order
with a completed 32.75 payment recorded against it. -/
theorem C10_witness :
    Order.save_existing mutatedOrder
      [{ amount := 3275 / 100, status := PaymentStatus.completed }] =
      some (Order.calculate_totals mutatedOrder) :=
  (C10_theorem mutatedOrder [{ amount := 3275 / 100, status := PaymentStatus.completed }]).2
    ⟨{ amount := 3275 / 100, status := PaymentStatus.completed }, by simp, rfl⟩

/-- **C10** counterexample to the claim as stated: with a completed
payment of 32.75 against the order, re-saving after a line-item change
is NOT rejected — totals are recomputed from 32.7474 to 45.3474. -/
theorem C10_counterexample :
    Order.save_existing mutatedOrder
      [{ amount := 3275 / 100, status := PaymentStatus.completed }] =
      some (Order.calculate_totals mutatedOrder) ∧
    mutatedOrder.total_amount = 327474 / 10000 ∧
    (Order.calculate_totals mutatedOrder).total_amount = 453474 / 10000 ∧
    (453474 / 10000 : ℚ) ≠ 327474 / 10000 := by
  refine ⟨rfl, ?_, ?_, by norm_num⟩ <;>
    norm_num [mutatedOrder, Order.calculate_totals, exampleOrder,
      OrderItem.create_from, OrderItem.save, menuBurger10, OrderItem.line_total]

/-- `Payment.refund` on a payment that fails the `can_be_refunded`
guard. -/
theorem refund_not_refundable (p : Payment) (a : Option ℚ) (r : String)
    (h : p.can_be_refunded = false) :
    Payment.refund p a r = Except.error RefundError.notRefundable := by
  simp [Payment.refund, h]

/-- `Payment.refund` on a payment that passes the `can_be_refunded`
guard, with the lets unfolded. -/
theorem refund_of_refundable (p : Payment) (a : Option ℚ) (r : String)
    (h : p.can_be_refunded = true) :
    Payment.refund p a r =
      if p.remaining_refundable_amount < p.resolve_refund_amount a then
        Except.error RefundError.exceedsRefundable
      else
        Except.ok
          ({ p with
              refunded_amount := p.refunded_amount + p.resolve_refund_amount a
              status := if p.amount ≤ p.refunded_amount + p.resolve_refund_amount a
                then PaymentStatus.refunded else PaymentStatus.partRefund },
            { amount := p.resolve_refund_amount a, reason := r }) := by
  simp [Payment.refund, h]

/-- **C5** (amended): `Refund` fails with `PaymentNotRefundable` exactly
unless `status = completed` and `remaining_refundable > 0`, fails with
`RefundExceedsRefundable` exactly when it is refundable but the resolved
refund amount exceeds the remaining refundable amount (no silent
capping: the refund row carries exactly the requested amount when one
was given and nonzero), defaults an omitted amount to the full remaining
refundable amount (then yielding `refunded_amount = amount` and status
`refunded`), and on success increments `refunded_amount` by the refund
row's amount (so `refunded_amount ≤ amount` always holds), creates one
`PaymentRefund` row, and sets status to `refunded` iff `refunded_amount
≥ amount paid` and to `partial_refund` otherwise.  Because a successful
refund always moves the status OFF `completed`, every later refund of
the same payment — including the claimed second refund of 22.75 after a
partial 10.00 — fails with `PaymentNotRefundable`: at most one refund
ever succeeds per payment. -/
theorem C5_theorem :
    ∀ (p : Payment) (a : Option ℚ) (reason : String),
      (Payment.refund p a reason = Except.error RefundError.notRefundable ↔
        p.can_be_refunded = false) ∧
      (p.can_be_refunded = true ↔
        (p.status = PaymentStatus.completed ∧ 0 < p.remaining_refundable_amount)) ∧
      (Payment.refund p a reason = Except.error RefundError.exceedsRefundable ↔
        p.can_be_refunded = true ∧
        p.remaining_refundable_amount < p.resolve_refund_amount a) ∧
      (a = none → p.can_be_refunded = true →
        Payment.refund p a reason =
          Except.ok ({ p with refunded_amount := p.amount, status := PaymentStatus.refunded },
            { amount := p.remaining_refundable_amount, reason := reason })) ∧
      (∀ (p' : Payment) (row : RefundRow),
        Payment.refund p a reason = Except.ok (p', row) →
        p'.amount = p.amount ∧
        row.amount = p.resolve_refund_amount a ∧
        (∀ x : ℚ, a = some x → ¬ x = 0 → row.amount = x) ∧
        p'.refunded_amount = p.refunded_amount + row.amount ∧
        row.amount ≤ p.remaining_refundable_amount ∧
        p'.refunded_amount ≤ p.amount ∧
        (p'.status = PaymentStatus.refunded ↔ p.amount ≤ p'.refunded_amount) ∧
        (p'.status = PaymentStatus.refunded ∨ p'.status = PaymentStatus.partRefund) ∧
        (∀ (a' : Option ℚ) (r' : String),
          Payment.refund p' a' r' = Except.error RefundError.notRefundable)) := by
  intro p a reason
  refine ⟨?_, ?_, ?_, ?_, ?_⟩
  · cases hcb : p.can_be_refunded
    · simp [refund_not_refundable p a reason hcb]
    · rw [refund_of_refundable p a reason hcb]
      constructor
      · intro h
        split at h <;> simp_all
      · intro h
        exact Bool.noConfusion h
  · simp [Payment.can_be_refunded, Payment.remaining_refundable_amount, sub_pos]
  · cases hcb : p.can_be_refunded
    · simp [refund_not_refundable p a reason hcb]
    · rw [refund_of_refundable p a reason hcb]
      by_cases hlt : p.remaining_refundable_amount < p.resolve_refund_amount a
      · simp [hlt]
      · simp [hlt]
  · intro ha hcb
    subst ha
    rw [refund_of_refundable p none reason hcb]
    have hres : p.resolve_refund_amount none = p.remaining_refundable_amount := rfl
    rw [hres, if_neg (lt_irrefl _)]
    have hfull : p.refunded_amount + p.remaining_refundable_amount = p.amount := by
      simp [Payment.remaining_refundable_amount]
    rw [Except.ok.injEq, Prod.mk.injEq]
    refine ⟨?_, rfl⟩
    rw [hfull]
    simp
  · intro p' row h
    cases hcb : p.can_be_refunded
    · rw [refund_not_refundable p a reason hcb] at h
      exact Except.noConfusion h
    · rw [refund_of_refundable p a reason hcb] at h
      split at h
      · exact Except.noConfusion h
      · rename_i hle
        rw [not_lt] at hle
        rw [Except.ok.injEq, Prod.mk.injEq] at h
        obtain ⟨hp, hrow⟩ := h
        have hra : row.amount = p.resolve_refund_amount a := by rw [← hrow]
        have hrem : p.remaining_refundable_amount = p.amount - p.refunded_amount := rfl
        subst hp
        refine ⟨rfl, hra, ?_, by rw [hra], by rw [hra]; exact hle, ?_, ?_, ?_, ?_⟩
        · intro x hx hx0
          rw [hra, hx]
          simp [Payment.resolve_refund_amount, hx0]
        · show p.refunded_amount + p.resolve_refund_amount a ≤ p.amount
          rw [hrem] at hle
          linarith
        · show (if p.amount ≤ p.refunded_amount + p.resolve_refund_amount a
            then PaymentStatus.refunded else PaymentStatus.partRefund) =
              PaymentStatus.refunded ↔ _
          split <;> rename_i hcase
          · simpa using hcase
          · simpa using hcase
        · show (if p.amount ≤ p.refunded_amount + p.resolve_refund_amount a
            then PaymentStatus.refunded else PaymentStatus.partRefund) =
              PaymentStatus.refunded ∨ _
          split
          · exact Or.inl rfl
          · exact Or.inr rfl
        · intro a' r'
          apply refund_not_refundable
          simp only [Payment.can_be_refunded]
          split <;> simp

/-- The completed 32.75 payment of the spec's scenario, and the same
payment after a partial refund of 10.00. -/
def pay3275 : Payment :=
  { amount := 3275 / 100, status := PaymentStatus.completed, refunded_amount := 0 }

def pay3275r10 : Payment :=
  { amount := 3275 / 100, status := PaymentStatus.partRefund, refunded_amount := 10 }

/-- **C5** witness: the theorem applied to the concrete 32.75 payment:
an omitted amount refunds the full 32.75 and yields status `refunded`,
and a requested 40.00 refund fails with `RefundExceedsRefundable`. -/
theorem C5_witness :
    (Payment.refund pay3275 none "full" =
      Except.ok ({ pay3275 with
          refunded_amount := pay3275.amount
          status := PaymentStatus.refunded },
        { amount := pay3275.remaining_refundable_amount, reason := "full" })) ∧
    Payment.refund pay3275 (some 40) "too much" =
      Except.error RefundError.exceedsRefundable :=
  ⟨(C5_theorem pay3275 none "full").2.2.2.1 rfl
      (by norm_num [Payment.can_be_refunded, pay3275]),
   (C5_theorem pay3275 (some 40) "too much").2.2.1.mpr
      ⟨by norm_num [Payment.can_be_refunded, pay3275],
       by norm_num [Payment.resolve_refund_amount,
         Payment.remaining_refundable_amount, pay3275]⟩⟩

/-- **C5** counterexample to the claim as stated: refunding 10.00 on the
completed 32.75 payment succeeds but sets status `partial_refund`, and
the claimed second refund of 22.75 then fails with
`PaymentNotRefundable` (the status is no longer `completed`) — the
scenario can never end with `refunded_amount = 32.75`. -/
theorem C5_counterexample :
    Payment.refund pay3275 (some 10) "first" =
      Except.ok (pay3275r10, { amount := 10, reason := "first" }) ∧
    Payment.refund pay3275r10 (some (2275 / 100)) "second" =
      Except.error RefundError.notRefundable ∧
    pay3275r10.status ≠ PaymentStatus.refunded ∧
    pay3275r10.refunded_amount ≠ 3275 / 100 := by
  refine ⟨?_, ?_, by decide, by norm_num [pay3275r10]⟩
  · rw [refund_of_refundable pay3275 (some 10) "first"
      (by norm_num [Payment.can_be_refunded, pay3275])]
    norm_num [Payment.resolve_refund_amount, Payment.remaining_refundable_amount,
      pay3275, pay3275r10]
  · exact refund_not_refundable pay3275r10 (some (2275 / 100)) "second" (by decide)

/-! ### Payment-balance bookkeeping lemmas for the ledger invariant -/

theorem completedSum_cons (x : PaymentRec) (t : List PaymentRec) :
    completedSum (x :: t) =
      (if x.status = PaymentStatus.completed then x.amount else 0) + completedSum t := by
  simp only [completedSum, List.filter_cons]
  split <;> simp_all

theorem openSum_cons (x : PaymentRec) (t : List PaymentRec) :
    openSum (x :: t) = (if x.isOpen then x.amount else 0) + openSum t := by
  simp only [openSum, List.filter_cons]
  split <;> simp_all

theorem completedSum_append (ps qs : List PaymentRec) :
    completedSum (ps ++ qs) = completedSum ps + completedSum qs := by
  simp [completedSum, List.filter_append]

theorem openSum_append (ps qs : List PaymentRec) :
    openSum (ps ++ qs) = openSum ps + openSum qs := by
  simp [openSum, List.filter_append]

theorem openSum_of_no_open (ps : List PaymentRec)
    (h : ps.filter PaymentRec.isOpen = []) : openSum ps = 0 := by
  simp [openSum, h]

theorem openSum_nonneg (ps : List PaymentRec)
    (h : ∀ p ∈ ps, 0 ≤ p.amount) : 0 ≤ openSum ps := by
  induction ps with
  | nil => simp [openSum]
  | cons x t ih =>
    rw [openSum_cons]
    have hx := h x (by simp)
    have ht := ih fun p hp => h p (by simp [hp])
    split <;> linarith

/-- What a successful `record_payment` implies: the serializer accepted a
positive amount within the remaining balance, and the new payment is
appended as `completed` for cash and `pending` otherwise. -/
theorem record_payment_some (total : ℚ) (ps : List PaymentRec) (amount : ℚ)
    (method : PaymentMethod) (ps' : List PaymentRec)
    (h : record_payment total ps amount method = some ps') :
    0 < amount ∧ amount ≤ total - completedSum ps ∧
    ps' = ps ++ [{ amount := amount, status := if method = PaymentMethod.cash then PaymentStatus.completed else PaymentStatus.pending }] := by
  by_cases h1 : amount ≤ 0
  · exfalso
    simp [record_payment, payment_create_validate, h1] at h
  · by_cases h2 : amount > total - completedSum ps
    · exfalso
      simp [record_payment, payment_create_validate, h1, h2] at h
    · refine ⟨lt_of_not_le h1, le_of_not_lt h2, ?_⟩
      simp only [record_payment, payment_create_validate, if_neg h1, if_neg h2] at h
      exact (Option.some.inj h).symm

/-- What a successful `process_payment_at` implies: the indexed payment
exists, was open, and is now marked completed in place. -/
theorem process_payment_at_some (ps : List PaymentRec) (i : ℕ)
    (ps' : List PaymentRec) (h : process_payment_at ps i = some ps') :
    ∃ p : PaymentRec, ps[i]? = some p ∧ p.isOpen = true ∧
      ps' = ps.set i { p with status := PaymentStatus.completed } := by
  cases hget : ps[i]? with
  | none => simp [process_payment_at, hget] at h
  | some p =>
    simp only [process_payment_at, hget] at h
    by_cases ho : p.isOpen = true
    · rw [if_pos ho] at h
      exact ⟨p, rfl, ho, (Option.some.inj h).symm⟩
    · rw [if_neg ho] at h
      exact Option.noConfusion h

/-- Marking an open payment completed moves its amount from the open sum
to the completed sum. -/
theorem sums_set_completed (ps : List PaymentRec) :
    ∀ (i : ℕ) (p : PaymentRec), ps[i]? = some p → p.isOpen = true →
      completedSum (ps.set i { p with status := PaymentStatus.completed }) =
        completedSum ps + p.amount ∧
      openSum (ps.set i { p with status := PaymentStatus.completed }) =
        openSum ps - p.amount := by
  induction ps with
  | nil => intro i p h _; simp at h
  | cons x t ih =>
    intro i p hget hopen
    have hopen' : p.status = PaymentStatus.pending ∨
        p.status = PaymentStatus.processing := by
      simpa [PaymentRec.isOpen] using hopen
    cases i with
    | zero =>
      rw [List.getElem?_cons_zero, Option.some.injEq] at hget
      cases hget
      have hnc : ¬ x.status = PaymentStatus.completed := by
        rcases hopen' with h | h <;> rw [h] <;> intro hcon <;>
          exact PaymentStatus.noConfusion hcon
      constructor
      · rw [List.set_cons_zero, completedSum_cons, completedSum_cons]
        simp [hnc]
        ring
      · rw [List.set_cons_zero, openSum_cons, openSum_cons]
        have hclosed : ({ x with status := PaymentStatus.completed } : PaymentRec).isOpen
            = false := by
          simp [PaymentRec.isOpen]
        simp [hclosed, hopen]
    | succ n =>
      rw [List.getElem?_cons_succ] at hget
      obtain ⟨h1, h2⟩ := ih n p hget hopen
      constructor
      · rw [List.set_cons_succ, completedSum_cons, completedSum_cons, h1]; ring
      · rw [List.set_cons_succ, openSum_cons, openSum_cons, h2]; ring

/-- A freshly recorded payment contributes its amount either to the
completed sum (cash) or to the open sum (all other methods). -/
theorem single_sums (amount : ℚ) (method : PaymentMethod) :
    completedSum [{ amount := amount, status := if method = PaymentMethod.cash then PaymentStatus.completed else PaymentStatus.pending }] +
      openSum [{ amount := amount, status := if method = PaymentMethod.cash then PaymentStatus.completed else PaymentStatus.pending }] = amount := by
  by_cases hm : method = PaymentMethod.cash <;>
    simp [hm, completedSum, openSum, PaymentRec.isOpen]

/-- The ledger invariant: in every state reachable under the serialized
discipline, all amounts are nonnegative and the completed and open sums
together stay within the order total. -/
theorem serialized_invariant (total : ℚ) (htot : 0 ≤ total) :
    ∀ ps : List PaymentRec, SerializedReach total ps →
      (∀ p ∈ ps, 0 ≤ p.amount) ∧ completedSum ps + openSum ps ≤ total := by
  intro ps h
  induction h with
  | init => simpa [completedSum, openSum] using htot
  | record ps amount method ps' hreach hser hok ih =>
    obtain ⟨hpos, hle, hps'⟩ := record_payment_some _ _ _ _ _ hok
    obtain ⟨ihn, ihs⟩ := ih
    have hopen0 : openSum ps = 0 := openSum_of_no_open ps hser
    subst hps'
    constructor
    · intro p hp
      rcases List.mem_append.1 hp with hp | hp
      · exact ihn p hp
      · rw [List.mem_singleton.1 hp]
        exact le_of_lt hpos
    · rw [completedSum_append, openSum_append]
      have hs := single_sums amount method
      linarith
  | process ps i ps' hreach hok ih =>
    obtain ⟨p, hget, hopen, hps'⟩ := process_payment_at_some _ _ _ hok
    obtain ⟨ihn, ihs⟩ := ih
    obtain ⟨hc, ho⟩ := sums_set_completed ps i p hget hopen
    subst hps'
    constructor
    · intro q hq
      rcases List.mem_or_eq_of_mem_set hq with hq | hq
      · exact ihn q hq
      · rw [hq]
        exact ihn p (List.getElem?_mem hget)
    · rw [hc, ho]
      linarith

/-- **C4** (amended): the invariant `Σ(completed payment amounts) ≤
total_amount` is enforced only at `RecordPayment` time;
`ProcessPayment` performs no balance re-check when completing a pending
or processing payment.  The invariant therefore holds in every ledger
state reachable under the serialized discipline that each payment is
settled before the next one is recorded — but NOT in general: two
pending payments recorded against the same balance can both be
processed to completion, pushing the completed sum past the total. -/
theorem C4_theorem :
    ∀ (total : ℚ) (ps : List PaymentRec),
      0 ≤ total → SerializedReach total ps → completedSum ps ≤ total := by
  intro total ps htot h
  obtain ⟨hn, hs⟩ := serialized_invariant total htot ps h
  have hopen := openSum_nonneg ps hn
  linarith

/-- **C4** witness: the theorem applied to the ledger holding one
completed cash payment of 32.75 against the 32.75 order, reached by a
serialized `record_payment`. -/
theorem C4_witness :
    completedSum [{ amount := 3275 / 100, status := PaymentStatus.completed }] ≤
      3275 / 100 :=
  C4_theorem (3275 / 100) _ (by norm_num)
    (SerializedReach.record [] (3275 / 100) PaymentMethod.cash _
      SerializedReach.init rfl
      (by norm_num [record_payment, payment_create_validate, completedSum]))

/-- The intermediate ledger states of the double-payment trace: two
card payments of 32.75 each recorded while both are pending, then both
processed to completion. -/
def ovL1 : List PaymentRec := [{ amount := 3275 / 100, status := PaymentStatus.pending }]

def ovL2 : List PaymentRec :=
  [{ amount := 3275 / 100, status := PaymentStatus.pending },
   { amount := 3275 / 100, status := PaymentStatus.pending }]

def ovL3 : List PaymentRec :=
  [{ amount := 3275 / 100, status := PaymentStatus.completed },
   { amount := 3275 / 100, status := PaymentStatus.pending }]

def ovL4 : List PaymentRec :=
  [{ amount := 3275 / 100, status := PaymentStatus.completed },
   { amount := 3275 / 100, status := PaymentStatus.completed }]

/-- **C4** counterexample to the claim as stated: against an order with
total 32.75, two card payments of 32.75 are both accepted while pending
(the balance check only counts completed payments), and `ProcessPayment`
then completes both without re-checking, reaching a state where the
completed payments sum to 65.50 > 32.75. -/
theorem C4_counterexample :
    record_payment (3275 / 100) [] (3275 / 100) PaymentMethod.card = some ovL1 ∧
    record_payment (3275 / 100) ovL1 (3275 / 100) PaymentMethod.card = some ovL2 ∧
    process_payment_at ovL2 0 = some ovL3 ∧
    process_payment_at ovL3 1 = some ovL4 ∧
    completedSum ovL4 = 655 / 10 ∧
    (3275 / 100 : ℚ) < completedSum ovL4 := by
  refine ⟨?_, ?_, ?_, ?_, ?_, ?_⟩ <;>
    simp [record_payment, payment_create_validate, process_payment_at,
      completedSum, PaymentRec.isOpen, ovL1, ovL2, ovL3, ovL4, List.set] <;>
    norm_num

end MariaPos
